import Mathlib

/-!
Verification of the screen-recorder orchestration program (src/main.rs).

The program records the primary display to `video.mp4` for 60 seconds:
`main` resolves the primary monitor, builds a `Settings` bundle, spawns a
worker thread running `Capture::start`, sleeps, sends on a stop channel and
joins.  The `Capture` handler owns an optional `VideoEncoder`; its
`on_frame_arrived` callback reports elapsed time, forwards the frame to the
encoder, then polls the stop channel non-blockingly, finalizing the encoder
and requesting the session stop when the channel is signaled or
disconnected.  We embed that logic as pure Lean functions over explicit
state, with an event trace recording the externally visible actions.
-/

namespace WinCapture

/-- Errors from the external libraries are opaque; a string message suffices. -/
abbrev Err := String

/-- A captured frame, opaque to the shim: only its identity matters. -/
structure Frame where
  id : Nat
deriving DecidableEq, Repr

/-- State of the mpsc unit channel: pending messages and whether the sender
end is still alive.  At most one message is ever sent by this program, but
the model keeps the general count. -/
structure ChannelState where
  msgs : Nat
  senderAlive : Bool
deriving DecidableEq, Repr

/-- Result kinds of `Receiver::try_recv` when no value is returned. -/
inductive TryRecvError
  | Empty
  | Disconnected
deriving DecidableEq, Repr

/-- `Receiver::<()>::try_recv`: a pending message is consumed; otherwise the
call reports `Empty` while the sender is alive and `Disconnected` once the
sender has been dropped. -/
def ChannelState.tryRecv (ch : ChannelState) : Except TryRecvError Unit × ChannelState :=
  match ch.msgs with
  | n + 1 => (.ok (), { ch with msgs := n })
  | 0 => if ch.senderAlive then (.error .Empty, ch) else (.error .Disconnected, ch)

/-- Video codec selector passed to the encoder (`VideoSettingsSubType`). -/
inductive VideoSubType
  | H264
  | HEVC
deriving DecidableEq, Repr

/-- The settings a `VideoEncoder` is constructed from. -/
structure VideoEncoderSettings where
  width : Nat
  height : Nat
  subType : VideoSubType
  audioDisabled : Bool
  path : String
deriving DecidableEq, Repr

/-- The external video encoder, identified by its construction settings. -/
structure VideoEncoder where
  settings : VideoEncoderSettings
deriving DecidableEq, Repr

/-- `CaptureContext`: the user flags carried inside `Settings` (output file
name, dimensions, and the stop-channel receiver). -/
structure CaptureContext where
  name : String
  width : Nat
  height : Nat
  rx : ChannelState
deriving DecidableEq, Repr

/-- The `Capture` handler state: the encoder slot (present while recording,
taken on finalize), the start timestamp, and the stop-channel receiver. -/
structure Capture where
  encoder : Option VideoEncoder
  start : Nat
  rx : ChannelState
deriving DecidableEq, Repr

/-- Externally visible actions of the handler, in program order. -/
inductive Event
  | printElapsed (secs : Nat)
  | sendFrame (f : Frame)
  | pollChannel
  | finishCalled
  | stopRequested
  | printNewline
  | printClosed
deriving DecidableEq, Repr

/-- Outcome of one handler callback: normal return (with or without having
requested the session stop), an error propagated with `?`, or a panic from
`unwrap` on an absent encoder. -/
inductive HandlerOutcome
  | ok (stopRequested : Bool)
  | err (e : Err)
  | panicked
deriving DecidableEq, Repr

/-- Result of one callback: the emitted events, the handler state after the
callback (mutations performed before an error are kept, matching `&mut
self`), and the outcome. -/
structure FrameStep where
  events : List Event
  state : Capture
  outcome : HandlerOutcome
deriving DecidableEq, Repr

/-- Behavior of the external world during one callback: the current clock,
and the results of the stdout flush, of `VideoEncoder::send_frame`, and of
`VideoEncoder::finish`. -/
structure Env where
  now : Nat
  flushResult : Except Err Unit
  sendFrameResult : Frame → Except Err Unit
  finishResult : Except Err Unit

/-- `Capture::on_frame_arrived`, line for line: print the elapsed time and
flush (`?` on failure), forward the frame via
`self.encoder.as_mut().unwrap().send_frame(frame)?`, then
`self.rx.try_recv()`: on `Ok(_) | Err(Disconnected)` take the encoder,
`finish()?` it, call `capture_control.stop()` and print a newline; on
`Err(Empty)` do nothing. -/
def on_frame_arrived (env : Env) (c : Capture) (frame : Frame) : FrameStep :=
  let evPrint := Event.printElapsed (env.now - c.start)
  match env.flushResult with
  | .error e => ⟨[evPrint], c, .err e⟩
  | .ok _ =>
    match c.encoder with
    | none => ⟨[evPrint], c, .panicked⟩
    | some _ =>
      match env.sendFrameResult frame with
      | .error e => ⟨[evPrint, .sendFrame frame], c, .err e⟩
      | .ok _ =>
        match c.rx.tryRecv with
        | (.ok _, rx2) | (.error .Disconnected, rx2) =>
          match c.encoder with
          | none => ⟨[evPrint, .sendFrame frame, .pollChannel], { c with rx := rx2 }, .panicked⟩
          | some _ =>
            let c2 : Capture := { c with encoder := none, rx := rx2 }
            match env.finishResult with
            | .error e =>
              ⟨[evPrint, .sendFrame frame, .pollChannel, .finishCalled], c2, .err e⟩
            | .ok _ =>
              ⟨[evPrint, .sendFrame frame, .pollChannel, .finishCalled, .stopRequested,
                .printNewline], c2, .ok true⟩
        | (.error .Empty, rx2) =>
          ⟨[evPrint, .sendFrame frame, .pollChannel], { c with rx := rx2 }, .ok false⟩

/-- `Capture::on_closed`: prints a message and returns `Ok(())`, touching no
state. -/
def on_closed (c : Capture) : FrameStep :=
  ⟨[Event.printClosed], c, .ok false⟩

/-- One unit of input delivered to the capture session's event loop: a frame
(with the external world's behavior for that callback) or the closure of the
capture item. -/
inductive SessionInput
  | frame (f : Frame) (env : Env)
  | closed

/-- Terminal (or still-running) status of a session run. -/
inductive SessionOutcome
  | running (c : Capture)
  | stoppedBySignal (c : Capture)
  | stoppedByClosed (c : Capture)
  | errored (e : Err) (c : Capture)
  | panicked (c : Capture)

/-- The capture event loop: frames are delivered sequentially to
`on_frame_arrived`; `capture_control.stop()` ends the loop, a propagated
error or panic tears it down, and closure of the capture item ends it via
`on_closed`. -/
def runSession (c : Capture) : List SessionInput → List Event × SessionOutcome
  | [] => ([], .running c)
  | .closed :: _ =>
    let s := on_closed c
    (s.events, .stoppedByClosed s.state)
  | .frame f env :: rest =>
    let s := on_frame_arrived env c f
    match s.outcome with
    | .ok true => (s.events, .stoppedBySignal s.state)
    | .ok false =>
      let r := runSession s.state rest
      (s.events ++ r.1, r.2)
    | .err e => (s.events, .errored e s.state)
    | .panicked => (s.events, .panicked s.state)

/-- Does this event read or consume the encoder slot? -/
def touchesEncoder : Event → Bool
  | .sendFrame _ => true
  | .finishCalled => true
  | _ => false

/-- Is this event the encoder-finalize call? -/
def isFinish : Event → Bool
  | .finishCalled => true
  | _ => false

/-- Is this event the stop-channel poll or the finalize call? -/
def isPollOrFinish : Event → Bool
  | .pollChannel => true
  | .finishCalled => true
  | _ => false

/-- After the first finalize event, no event may touch the encoder again. -/
def noTouchAfterFinish : List Event → Bool
  | [] => true
  | .finishCalled :: rest => rest.all (fun e => !touchesEncoder e)
  | _ :: rest => noTouchAfterFinish rest

/-- Every occurrence of a `q`-event is preceded by some `p`-event: scanning
left to right, meeting a `q` before any `p` refutes the property, and the
first `p` validates everything after it. -/
def eventPrecedes (p q : Event → Bool) : List Event → Bool
  | [] => true
  | e :: rest => if q e then false else if p e then true else eventPrecedes p q rest

/-- The state of the stop channel, as the worker's receiver sees it, at time
`t` when the orchestrator sends the single stop message at time `sig` (the
sender stays alive until `join` returns). -/
def chanAt (sig t : Nat) : ChannelState :=
  if sig ≤ t then ⟨1, true⟩ else ⟨0, true⟩

/-- A monitor handle: the platform may fail to report the dimensions. -/
structure Monitor where
  width : Option Nat
  height : Option Nat
deriving DecidableEq, Repr

/-- Cursor capture option (`CursorCaptureSettings`). -/
inductive CursorCaptureSettings
  | Default
  | WithCursor
  | WithoutCursor
deriving DecidableEq, Repr

/-- Border drawing option (`DrawBorderSettings`). -/
inductive DrawBorderSettings
  | Default
  | WithBorder
  | WithoutBorder
deriving DecidableEq, Repr

/-- Pixel format option (`ColorFormat`). -/
inductive ColorFormat
  | Rgba8
  | Bgra8
deriving DecidableEq, Repr

/-- The session configuration bundle (`Settings::new` arguments). -/
structure Settings where
  item : Monitor
  cursorCapture : CursorCaptureSettings
  drawBorder : DrawBorderSettings
  colorFormat : ColorFormat
  flags : CaptureContext
deriving DecidableEq, Repr

/-- The fixed recording duration: `sleep(Duration::from_secs(60))`. -/
def RECORDING_DURATION_SECS : Nat := 60

/-- The `Settings` value `main` constructs: the primary monitor, cursor
captured, no border, BGRA8, and flags naming `video.mp4` with the monitor's
dimensions and a fresh (empty, connected) receiver. -/
def mkSettings (m : Monitor) (w h : Nat) : Settings :=
  { item := m
    cursorCapture := .WithCursor
    drawBorder := .WithoutBorder
    colorFormat := .Bgra8
    flags := { name := "video.mp4", width := w, height := h, rx := ⟨0, true⟩ } }

/-- The encoder settings `Capture::new` derives from its flags: the flag
dimensions, H.264 video, audio disabled, output at the flag name. -/
def encoderSettingsOf (ctx : CaptureContext) : VideoEncoderSettings :=
  { width := ctx.width
    height := ctx.height
    subType := .H264
    audioDisabled := true
    path := ctx.name }

/-- `Capture::new`: construct the `VideoEncoder` from the flags (the
external constructor may fail, propagated with `?`), store it in the slot
and record the start instant. -/
def Capture.new (now : Nat) (ctx : CaptureContext) (encoderOk : Bool) : Except Err Capture :=
  if encoderOk then
    .ok { encoder := some { settings := encoderSettingsOf ctx }, start := now, rx := ctx.rx }
  else
    .error "VideoEncoder construction failed"

/-- Equality of `Except` values is decidable when both components are. -/
instance {α β : Type} [DecidableEq α] [DecidableEq β] : DecidableEq (Except α β)
  | .ok a, .ok b =>
    if h : a = b then .isTrue (by rw [h]) else .isFalse (fun hh => h (Except.ok.inj hh))
  | .error a, .error b =>
    if h : a = b then .isTrue (by rw [h]) else .isFalse (fun hh => h (Except.error.inj hh))
  | .ok _, .error _ => .isFalse (fun hh => Except.noConfusion hh)
  | .error _, .ok _ => .isFalse (fun hh => Except.noConfusion hh)

/-- Orchestrator-level actions of `main`, in program order.  Worker-thread
actions (output-file creation by the encoder constructor, the result report
printed by the spawned closure) are interleaved after the spawn. -/
inductive MainEvent
  | resolvedMonitor
  | channelCreated
  | settingsConstructed (s : Settings)
  | spawnedWorker
  | outputFileCreated (path : String)
  | workerReported (r : Except Err Unit)
  | slept (secs : Nat)
  | sentStop
  | joined
deriving DecidableEq, Repr

/-- How the process terminates: normal success, a startup `expect`/`unwrap`
panic, or the panic of `tx.send(()).unwrap()` when the receiver is gone. -/
inductive ProcessExit
  | success
  | startupPanic (msg : String)
  | sendPanic
deriving DecidableEq, Repr

/-- Observable behavior of the worker thread, abstracting the capture
backend: whether the encoder constructor created the output file, whether
the thread had already terminated (dropping the receiver) when the
orchestrator sent the stop signal, and the result of `Capture::start`. -/
structure WorkerBehavior where
  createsOutputFile : Bool
  terminatedBeforeSignal : Bool
  result : Except Err Unit
deriving DecidableEq, Repr

/-- `fn main`: `Monitor::primary().expect(...)` (fatal panic if absent), the
channel, `Settings::new` with `width().unwrap()` / `height().unwrap()`
(fatal panic if absent), `thread::spawn` of the closure matching
`Capture::start` and printing its result, `sleep(60s)`,
`tx.send(()).unwrap()` (panics when the worker already terminated and
dropped the receiver), and `let _ = recorder_thread.join()` (outcome
discarded). -/
def mainRun (primary : Option Monitor) (worker : WorkerBehavior) :
    List MainEvent × ProcessExit :=
  match primary with
  | none => ([], .startupPanic "There is no primary monitor")
  | some m =>
    match m.width with
    | none => ([.resolvedMonitor, .channelCreated], .startupPanic "width unavailable")
    | some w =>
      match m.height with
      | none => ([.resolvedMonitor, .channelCreated], .startupPanic "height unavailable")
      | some h =>
        let settings := mkSettings m w h
        let fileEvs := if worker.createsOutputFile
          then [MainEvent.outputFileCreated "video.mp4"] else []
        let evs := [MainEvent.resolvedMonitor, .channelCreated,
            .settingsConstructed settings, .spawnedWorker]
          ++ fileEvs ++ [.workerReported worker.result,
            .slept RECORDING_DURATION_SECS, .sentStop]
        if worker.terminatedBeforeSignal then
          (evs, .sendPanic)
        else
          (evs ++ [.joined], .success)

/-- Is this event the construction of the session configuration? -/
def isSettingsEvent : MainEvent → Bool
  | .settingsConstructed _ => true
  | _ => false

/-- Sample flags for concrete instantiations. -/
def sampleCtx : CaptureContext :=
  { name := "video.mp4", width := 8, height := 6, rx := ⟨0, true⟩ }

/-- Sample encoder for concrete instantiations. -/
def sampleEncoder : VideoEncoder := { settings := encoderSettingsOf sampleCtx }

/-- Sample handler state, recording with the encoder present. -/
def sampleCapture : Capture := { encoder := some sampleEncoder, start := 0, rx := ⟨0, true⟩ }

/-- Sample external behavior in which every operation succeeds. -/
def sampleEnv : Env :=
  { now := 5, flushResult := .ok (), sendFrameResult := fun _ => .ok (),
    finishResult := .ok () }

/-- Sample external behavior in which `finish` fails. -/
def sampleEnvFinFail : Env := { sampleEnv with finishResult := .error "finish failed" }

/-- Sample external behavior in which the stdout flush fails. -/
def sampleEnvFlushFail : Env := { sampleEnv with flushResult := .error "flush failed" }

/-- Sample external behavior in which `send_frame` fails. -/
def sampleEnvSendFail : Env :=
  { sampleEnv with sendFrameResult := fun _ => .error "send failed" }

/-- Sample frame for concrete instantiations. -/
def sampleFrame : Frame := ⟨0⟩

/-- Did the process die in a startup `expect`/`unwrap`? -/
def isStartupPanic : ProcessExit → Bool
  | .startupPanic _ => true
  | _ => false

/-- Is this event the creation of the output file? -/
def isFileEvent : MainEvent → Bool
  | .outputFileCreated _ => true
  | _ => false

/-- A monitor that reports both dimensions. -/
def sampleMonitor : Monitor := { width := some 1920, height := some 1080 }

/-- A worker that runs normally: it creates the output file and is still
running when the orchestrator sends the stop signal. -/
def sampleWorker : WorkerBehavior :=
  { createsOutputFile := true, terminatedBeforeSignal := false, result := .ok () }

/-- A worker whose capture session failed immediately: no output file, the
thread terminated (dropping the receiver) before the stop signal, and
`Capture::start` returned an error. -/
def failedWorker : WorkerBehavior :=
  { createsOutputFile := false, terminatedBeforeSignal := true,
    result := .error "capture failed" }

/-- A worker whose capture session errored but whose thread was still alive
when the stop signal was sent. -/
def erroredButAliveWorker : WorkerBehavior :=
  { createsOutputFile := true, terminatedBeforeSignal := false,
    result := .error "capture failed" }

/-- Every single callback's trace keeps the finalize-at-most-once
discipline: nothing touches the encoder after a finalize, at most one
finalize appears, and a callback that returns without requesting the stop
emitted no finalize at all. -/
theorem step_trace_props (env : Env) (c : Capture) (f : Frame) :
    noTouchAfterFinish (on_frame_arrived env c f).events = true ∧
    (on_frame_arrived env c f).events.countP isFinish ≤ 1 ∧
    ((on_frame_arrived env c f).outcome = .ok false →
      (on_frame_arrived env c f).events.countP isFinish = 0) := by
  obtain ⟨enc, start, msgs, alive⟩ := c
  obtain ⟨now, fl, sf, fin⟩ := env
  rcases hsf : sf f with e' | u' <;>
    cases fl <;> cases enc <;> cases msgs <;> cases alive <;> cases fin <;>
      simp [on_frame_arrived, ChannelState.tryRecv, hsf, noTouchAfterFinish, isFinish,
        touchesEncoder, List.countP_cons]

/-- A finalize-free prefix does not affect the no-touch-after-finalize
check on the rest of the trace. -/
theorem noTouchAfterFinish_append (l t : List Event) (h : l.countP isFinish = 0) :
    noTouchAfterFinish (l ++ t) = noTouchAfterFinish t := by
  induction l with
  | nil => rfl
  | cons e rest ih =>
    cases e <;>
      simp_all [List.countP_cons, isFinish, noTouchAfterFinish]

/-- Over a whole session run, the trace finalizes at most once and never
touches the encoder after the finalize. -/
theorem runSession_trace_props (inputs : List SessionInput) (c : Capture) :
    noTouchAfterFinish (runSession c inputs).1 = true ∧
    (runSession c inputs).1.countP isFinish ≤ 1 := by
  induction inputs generalizing c with
  | nil => simp [runSession, noTouchAfterFinish]
  | cons i rest ih =>
    cases i with
    | closed =>
      simp [runSession, on_closed, noTouchAfterFinish, isFinish, List.countP_cons]
    | frame f env =>
      have hs := step_trace_props env c f
      rcases ho : (on_frame_arrived env c f).outcome with b | e | _
      · cases b with
        | false =>
          have h0 := hs.2.2 ho
          have ihs := ih (on_frame_arrived env c f).state
          constructor
          · simp only [runSession, ho]
            rw [noTouchAfterFinish_append _ _ h0]
            exact ihs.1
          · simp only [runSession, ho]
            rw [List.countP_append, h0]
            simpa using ihs.2
        | true =>
          constructor
          · simp only [runSession, ho]; exact hs.1
          · simp only [runSession, ho]; exact hs.2.1
      · constructor
        · simp only [runSession, ho]; exact hs.1
        · simp only [runSession, ho]; exact hs.2.1
      · constructor
        · simp only [runSession, ho]; exact hs.1
        · simp only [runSession, ho]; exact hs.2.1

/-- Whenever a callback emitted the finalize call, its resulting state has
an empty encoder slot: finalize consumes the encoder. -/
theorem step_finish_takes (env : Env) (c : Capture) (f : Frame) :
    Event.finishCalled ∉ (on_frame_arrived env c f).events ∨
      (on_frame_arrived env c f).state.encoder = none := by
  obtain ⟨enc, start, msgs, alive⟩ := c
  obtain ⟨now, fl, sf, fin⟩ := env
  rcases hsf : sf f with e' | u' <;>
    cases fl <;> cases enc <;> cases msgs <;> cases alive <;> cases fin <;>
      simp [on_frame_arrived, ChannelState.tryRecv, hsf]

/-- Claim C5: when the capture target closes independently of the stop
signal, the session ends through `on_closed`, which only prints a message:
the handler state, in particular the encoder slot, is left unchanged and no
finalize happens on that path. -/
theorem closed_path_leaves_encoder_untouched (c : Capture) (rest : List SessionInput) :
    on_closed c = ⟨[Event.printClosed], c, .ok false⟩ ∧
    (on_closed c).state.encoder = c.encoder ∧
    runSession c (SessionInput.closed :: rest) =
      ([Event.printClosed], SessionOutcome.stoppedByClosed c) := by
  exact ⟨rfl, rfl, rfl⟩

/-- Claim C9: in every frame callback, the frame is forwarded to the
encoder before the stop channel is polled and before any finalize: every
poll or finalize event in the callback's trace is preceded by the
`send_frame` of the delivered frame. -/
theorem frame_forwarded_before_poll (env : Env) (c : Capture) (f : Frame) :
    eventPrecedes (fun e => e == Event.sendFrame f) isPollOrFinish
      (on_frame_arrived env c f).events = true := by
  obtain ⟨enc, start, msgs, alive⟩ := c
  obtain ⟨now, fl, sf, fin⟩ := env
  rcases hsf : sf f with e' | u' <;>
    cases fl <;> cases enc <;> cases msgs <;> cases alive <;> cases fin <;>
      simp [on_frame_arrived, ChannelState.tryRecv, hsf, eventPrecedes, isPollOrFinish]

/-- Claim C2: the encoder is finalized at most once per session: the sink
keeps it in a present/absent slot, finalize consumes it (the slot is empty
afterwards), and after the finalize no later operation of the run touches
the encoder. -/
theorem encoder_finalized_at_most_once (c : Capture) (inputs : List SessionInput)
    (env : Env) (f : Frame) :
    noTouchAfterFinish (runSession c inputs).1 = true ∧
    (runSession c inputs).1.countP isFinish ≤ 1 ∧
    (Event.finishCalled ∉ (on_frame_arrived env c f).events ∨
      (on_frame_arrived env c f).state.encoder = none) := by
  exact ⟨(runSession_trace_props inputs c).1, (runSession_trace_props inputs c).2,
    step_finish_takes env c f⟩

/-- Claim C1: after forwarding the frame, the handler polls the stop
channel without blocking; a pending message and a disconnected channel are
treated identically (same events, same outcome, same encoder effect), and
on either the encoder is finalized and, when finalize succeeds, the session
stop is requested; an empty connected channel leaves the encoder in place
and the recording running. -/
theorem stop_signal_and_disconnect_equivalent (env : Env) (c : Capture) (f : Frame)
    (enc : VideoEncoder) (n : Nat) (alive : Bool)
    (hflush : env.flushResult = .ok ())
    (hsend : env.sendFrameResult f = .ok ())
    (hfin : env.finishResult = .ok ())
    (henc : c.encoder = some enc) :
    (on_frame_arrived env { c with rx := ⟨n + 1, alive⟩ } f).events =
      (on_frame_arrived env { c with rx := ⟨0, false⟩ } f).events ∧
    (on_frame_arrived env { c with rx := ⟨n + 1, alive⟩ } f).outcome =
      (on_frame_arrived env { c with rx := ⟨0, false⟩ } f).outcome ∧
    (on_frame_arrived env { c with rx := ⟨n + 1, alive⟩ } f).state.encoder =
      (on_frame_arrived env { c with rx := ⟨0, false⟩ } f).state.encoder ∧
    (on_frame_arrived env { c with rx := ⟨n + 1, alive⟩ } f).outcome = .ok true ∧
    Event.finishCalled ∈ (on_frame_arrived env { c with rx := ⟨n + 1, alive⟩ } f).events ∧
    Event.stopRequested ∈ (on_frame_arrived env { c with rx := ⟨n + 1, alive⟩ } f).events ∧
    (on_frame_arrived env { c with rx := ⟨0, true⟩ } f).outcome = .ok false ∧
    (on_frame_arrived env { c with rx := ⟨0, true⟩ } f).state.encoder = some enc ∧
    Event.finishCalled ∉ (on_frame_arrived env { c with rx := ⟨0, true⟩ } f).events ∧
    Event.stopRequested ∉ (on_frame_arrived env { c with rx := ⟨0, true⟩ } f).events ∧
    eventPrecedes (fun e => e == Event.sendFrame f) isPollOrFinish
      (on_frame_arrived env { c with rx := ⟨n + 1, alive⟩ } f).events = true := by
  simp [on_frame_arrived, ChannelState.tryRecv, hflush, hsend, hfin, henc,
    eventPrecedes, isPollOrFinish]

/-- Concrete run of the stop-equivalence theorem: all operations succeed,
the encoder is present, and the channel cases behave as stated. -/
theorem stop_signal_and_disconnect_equivalent_witness :
    sampleEnv.flushResult = .ok () ∧
    sampleEnv.sendFrameResult sampleFrame = .ok () ∧
    sampleEnv.finishResult = .ok () ∧
    sampleCapture.encoder = some sampleEncoder ∧
    ((on_frame_arrived sampleEnv { sampleCapture with rx := ⟨1, true⟩ } sampleFrame).events =
      (on_frame_arrived sampleEnv { sampleCapture with rx := ⟨0, false⟩ } sampleFrame).events ∧
    (on_frame_arrived sampleEnv { sampleCapture with rx := ⟨1, true⟩ } sampleFrame).outcome =
      (on_frame_arrived sampleEnv { sampleCapture with rx := ⟨0, false⟩ } sampleFrame).outcome ∧
    (on_frame_arrived sampleEnv { sampleCapture with rx := ⟨1, true⟩ } sampleFrame).state.encoder =
      (on_frame_arrived sampleEnv { sampleCapture with rx := ⟨0, false⟩ } sampleFrame).state.encoder ∧
    (on_frame_arrived sampleEnv { sampleCapture with rx := ⟨1, true⟩ } sampleFrame).outcome =
      .ok true ∧
    Event.finishCalled ∈
      (on_frame_arrived sampleEnv { sampleCapture with rx := ⟨1, true⟩ } sampleFrame).events ∧
    Event.stopRequested ∈
      (on_frame_arrived sampleEnv { sampleCapture with rx := ⟨1, true⟩ } sampleFrame).events ∧
    (on_frame_arrived sampleEnv { sampleCapture with rx := ⟨0, true⟩ } sampleFrame).outcome =
      .ok false ∧
    (on_frame_arrived sampleEnv { sampleCapture with rx := ⟨0, true⟩ } sampleFrame).state.encoder =
      some sampleEncoder ∧
    Event.finishCalled ∉
      (on_frame_arrived sampleEnv { sampleCapture with rx := ⟨0, true⟩ } sampleFrame).events ∧
    Event.stopRequested ∉
      (on_frame_arrived sampleEnv { sampleCapture with rx := ⟨0, true⟩ } sampleFrame).events ∧
    eventPrecedes (fun e => e == Event.sendFrame sampleFrame) isPollOrFinish
      (on_frame_arrived sampleEnv { sampleCapture with rx := ⟨1, true⟩ } sampleFrame).events =
      true) :=
  ⟨rfl, rfl, rfl, rfl,
    stop_signal_and_disconnect_equivalent sampleEnv sampleCapture sampleFrame
      sampleEncoder 0 true rfl rfl rfl rfl⟩

/-- Claim C6: a failed progress-report flush or a failed `send_frame` is
fatal for the callback: the error is propagated as the callback's result,
the handler state (encoder included) is unchanged, and no finalize or stop
request happens. -/
theorem frame_report_or_send_failure_fatal (envF envS : Env) (c : Capture) (f : Frame)
    (enc : VideoEncoder) (e1 e2 : Err)
    (hflush : envF.flushResult = .error e1)
    (hflush2 : envS.flushResult = .ok ())
    (hsend : envS.sendFrameResult f = .error e2)
    (henc : c.encoder = some enc) :
    (on_frame_arrived envF c f).outcome = .err e1 ∧
    (on_frame_arrived envF c f).state = c ∧
    Event.finishCalled ∉ (on_frame_arrived envF c f).events ∧
    Event.sendFrame f ∉ (on_frame_arrived envF c f).events ∧
    (on_frame_arrived envS c f).outcome = .err e2 ∧
    (on_frame_arrived envS c f).state = c ∧
    Event.finishCalled ∉ (on_frame_arrived envS c f).events ∧
    Event.stopRequested ∉ (on_frame_arrived envS c f).events := by
  simp [on_frame_arrived, hflush, hflush2, hsend, henc]

/-- Concrete run of the fatal-frame-error theorem: the flush-failing and
the send-failing environments both abort the callback without finalize. -/
theorem frame_report_or_send_failure_fatal_witness :
    sampleEnvFlushFail.flushResult = .error "flush failed" ∧
    sampleEnvSendFail.flushResult = .ok () ∧
    sampleEnvSendFail.sendFrameResult sampleFrame = .error "send failed" ∧
    sampleCapture.encoder = some sampleEncoder ∧
    ((on_frame_arrived sampleEnvFlushFail sampleCapture sampleFrame).outcome =
      .err "flush failed" ∧
    (on_frame_arrived sampleEnvFlushFail sampleCapture sampleFrame).state = sampleCapture ∧
    Event.finishCalled ∉ (on_frame_arrived sampleEnvFlushFail sampleCapture sampleFrame).events ∧
    Event.sendFrame sampleFrame ∉
      (on_frame_arrived sampleEnvFlushFail sampleCapture sampleFrame).events ∧
    (on_frame_arrived sampleEnvSendFail sampleCapture sampleFrame).outcome =
      .err "send failed" ∧
    (on_frame_arrived sampleEnvSendFail sampleCapture sampleFrame).state = sampleCapture ∧
    Event.finishCalled ∉ (on_frame_arrived sampleEnvSendFail sampleCapture sampleFrame).events ∧
    Event.stopRequested ∉
      (on_frame_arrived sampleEnvSendFail sampleCapture sampleFrame).events) :=
  ⟨rfl, rfl, rfl, rfl,
    frame_report_or_send_failure_fatal sampleEnvFlushFail sampleEnvSendFail sampleCapture
      sampleFrame sampleEncoder "flush failed" "send failed" rfl rfl rfl rfl⟩

/-- Claim C10: when `finish` fails in the stop-handling branch the failure
is not atomic: the encoder has already been taken (the slot is empty), the
session stop is never requested on that path, and the error is propagated;
the same holds when the branch was entered through disconnection. -/
theorem finish_failure_not_atomic (env : Env) (c : Capture) (f : Frame)
    (enc : VideoEncoder) (e : Err) (n : Nat) (alive : Bool)
    (hflush : env.flushResult = .ok ())
    (hsend : env.sendFrameResult f = .ok ())
    (henc : c.encoder = some enc)
    (hfin : env.finishResult = .error e) :
    (on_frame_arrived env { c with rx := ⟨n + 1, alive⟩ } f).outcome = .err e ∧
    (on_frame_arrived env { c with rx := ⟨n + 1, alive⟩ } f).state.encoder = none ∧
    Event.stopRequested ∉ (on_frame_arrived env { c with rx := ⟨n + 1, alive⟩ } f).events ∧
    Event.finishCalled ∈ (on_frame_arrived env { c with rx := ⟨n + 1, alive⟩ } f).events ∧
    (on_frame_arrived env { c with rx := ⟨0, false⟩ } f).outcome = .err e ∧
    (on_frame_arrived env { c with rx := ⟨0, false⟩ } f).state.encoder = none ∧
    Event.stopRequested ∉ (on_frame_arrived env { c with rx := ⟨0, false⟩ } f).events := by
  simp [on_frame_arrived, ChannelState.tryRecv, hflush, hsend, hfin, henc]

/-- Concrete run of the non-atomic-finish theorem: a failing `finish` on a
signaled channel leaves the slot empty and the stop unrequested. -/
theorem finish_failure_not_atomic_witness :
    sampleEnvFinFail.flushResult = .ok () ∧
    sampleEnvFinFail.sendFrameResult sampleFrame = .ok () ∧
    sampleCapture.encoder = some sampleEncoder ∧
    sampleEnvFinFail.finishResult = .error "finish failed" ∧
    ((on_frame_arrived sampleEnvFinFail { sampleCapture with rx := ⟨1, true⟩ }
        sampleFrame).outcome = .err "finish failed" ∧
    (on_frame_arrived sampleEnvFinFail { sampleCapture with rx := ⟨1, true⟩ }
        sampleFrame).state.encoder = none ∧
    Event.stopRequested ∉
      (on_frame_arrived sampleEnvFinFail { sampleCapture with rx := ⟨1, true⟩ }
        sampleFrame).events ∧
    Event.finishCalled ∈
      (on_frame_arrived sampleEnvFinFail { sampleCapture with rx := ⟨1, true⟩ }
        sampleFrame).events ∧
    (on_frame_arrived sampleEnvFinFail { sampleCapture with rx := ⟨0, false⟩ }
        sampleFrame).outcome = .err "finish failed" ∧
    (on_frame_arrived sampleEnvFinFail { sampleCapture with rx := ⟨0, false⟩ }
        sampleFrame).state.encoder = none ∧
    Event.stopRequested ∉
      (on_frame_arrived sampleEnvFinFail { sampleCapture with rx := ⟨0, false⟩ }
        sampleFrame).events) :=
  ⟨rfl, rfl, rfl, rfl,
    finish_failure_not_atomic sampleEnvFinFail sampleCapture sampleFrame sampleEncoder
      "finish failed" 0 true rfl rfl rfl rfl⟩

/-- Claim C3, refuted as stated: when the worker thread has already
terminated before the stop signal (as after an early capture-session
error), `tx.send(()).unwrap()` finds the receiver dropped and panics, so
the process exit is not success. -/
theorem exit_success_claim_refuted :
    (mainRun (some sampleMonitor) failedWorker).2 = ProcessExit.sendPanic ∧
    (mainRun (some sampleMonitor) failedWorker).2 ≠ ProcessExit.success := by
  constructor <;> decide

/-- Claim C3 as amended: provided the worker thread is still alive when the
stop signal is sent, the process exit is success whatever the capture
session's result; the worker's error is only reported (printed) and the
join outcome is discarded. -/
theorem exit_success_when_worker_alive (m : Monitor) (w h : Nat)
    (worker : WorkerBehavior)
    (hw : m.width = some w) (hh : m.height = some h)
    (halive : worker.terminatedBeforeSignal = false) :
    (mainRun (some m) worker).2 = ProcessExit.success ∧
    MainEvent.workerReported worker.result ∈ (mainRun (some m) worker).1 ∧
    MainEvent.joined ∈ (mainRun (some m) worker).1 := by
  obtain ⟨cof, term, res⟩ := worker
  simp only at halive
  subst halive
  cases cof <;> simp [mainRun, hw, hh]

/-- Concrete run of the amended exit-status theorem: a worker that errored
but was still alive at signal time leaves the exit status success. -/
theorem exit_success_when_worker_alive_witness :
    (mainRun (some sampleMonitor) erroredButAliveWorker).2 = ProcessExit.success ∧
    MainEvent.workerReported erroredButAliveWorker.result ∈
      (mainRun (some sampleMonitor) erroredButAliveWorker).1 ∧
    MainEvent.joined ∈ (mainRun (some sampleMonitor) erroredButAliveWorker).1 :=
  exit_success_when_worker_alive sampleMonitor 1920 1080 erroredButAliveWorker
    rfl rfl rfl

/-- Claim C4: with no primary display, or with a display whose width or
height cannot be obtained, `main` dies in a startup panic before spawning
the worker thread and before any output file is created. -/
theorem startup_failure_is_fatal_before_spawn (primary : Option Monitor)
    (worker : WorkerBehavior)
    (hbad : primary = none ∨
      ∃ m, primary = some m ∧ (m.width = none ∨ m.height = none)) :
    isStartupPanic (mainRun primary worker).2 = true ∧
    MainEvent.spawnedWorker ∉ (mainRun primary worker).1 ∧
    (mainRun primary worker).1.any isFileEvent = false := by
  rcases hbad with h | ⟨m, hm, hwh⟩
  · subst h
    simp [mainRun, isStartupPanic]
  · subst hm
    obtain ⟨mw, mh⟩ := m
    rcases hwh with h | h <;> simp only at h <;> subst h
    · simp [mainRun, isStartupPanic, isFileEvent]
    · cases mw <;> simp [mainRun, isStartupPanic, isFileEvent]

/-- Concrete run of the startup-failure theorem: with no primary monitor
the process panics at startup, spawns nothing and creates no file. -/
theorem startup_failure_is_fatal_before_spawn_witness :
    isStartupPanic (mainRun none sampleWorker).2 = true ∧
    MainEvent.spawnedWorker ∉ (mainRun none sampleWorker).1 ∧
    (mainRun none sampleWorker).1.any isFileEvent = false :=
  startup_failure_is_fatal_before_spawn none sampleWorker (Or.inl rfl)

/-- Claim C7: the session configuration is fixed and constructed exactly
once: output name `video.mp4`, H.264 video, audio disabled, dimensions from
the monitor, and a 60-second recording duration; `Capture::new` consumes
the flags unchanged into the encoder it stores. -/
theorem fixed_configuration (m : Monitor) (w h now : Nat) (worker : WorkerBehavior)
    (hw : m.width = some w) (hh : m.height = some h) :
    (mainRun (some m) worker).1.countP isSettingsEvent = 1 ∧
    MainEvent.settingsConstructed (mkSettings m w h) ∈ (mainRun (some m) worker).1 ∧
    (mkSettings m w h).flags.name = "video.mp4" ∧
    encoderSettingsOf (mkSettings m w h).flags =
      { width := w, height := h, subType := .H264, audioDisabled := true,
        path := "video.mp4" } ∧
    Capture.new now (mkSettings m w h).flags true =
      .ok { encoder := some { settings := encoderSettingsOf (mkSettings m w h).flags },
            start := now, rx := ⟨0, true⟩ } ∧
    RECORDING_DURATION_SECS = 60 ∧
    MainEvent.slept 60 ∈ (mainRun (some m) worker).1 := by
  obtain ⟨cof, term, res⟩ := worker
  cases cof <;> cases term <;>
    simp [mainRun, mkSettings, encoderSettingsOf, Capture.new, isSettingsEvent,
      RECORDING_DURATION_SECS, hw, hh, List.countP_cons]

/-- Concrete run of the fixed-configuration theorem on the sample monitor
and worker. -/
theorem fixed_configuration_witness :
    (mainRun (some sampleMonitor) sampleWorker).1.countP isSettingsEvent = 1 ∧
    MainEvent.settingsConstructed (mkSettings sampleMonitor 1920 1080) ∈
      (mainRun (some sampleMonitor) sampleWorker).1 ∧
    (mkSettings sampleMonitor 1920 1080).flags.name = "video.mp4" ∧
    encoderSettingsOf (mkSettings sampleMonitor 1920 1080).flags =
      { width := 1920, height := 1080, subType := .H264, audioDisabled := true,
        path := "video.mp4" } ∧
    Capture.new 7 (mkSettings sampleMonitor 1920 1080).flags true =
      .ok { encoder := some
              { settings := encoderSettingsOf (mkSettings sampleMonitor 1920 1080).flags },
            start := 7, rx := ⟨0, true⟩ } ∧
    RECORDING_DURATION_SECS = 60 ∧
    MainEvent.slept 60 ∈ (mainRun (some sampleMonitor) sampleWorker).1 :=
  fixed_configuration sampleMonitor 1920 1080 7 sampleWorker rfl rfl

/-- Claim C8: cancellation is cooperative.  For any duration `D ≥ 0` and
any frame schedule `f` whose consecutive arrivals are at most one interval
apart and which started by time `D`, the first frame index `k` at or after
the signal time `D` arrives no later than `D` plus one interval; the
callback at that frame observes the signal and requests the stop, while
every earlier callback (index `j < k`) sees an empty channel and lets the
recording continue — the worker never stops between callbacks. -/
theorem cooperative_stop_latency (D interval : Nat) (f : Nat → Nat) (k j : Nat)
    (env : Env) (c : Capture) (fr : Frame) (enc : VideoEncoder)
    (hD : 0 ≤ D)
    (hgap : ∀ i, f (i + 1) ≤ f i + interval)
    (h0 : f 0 ≤ D)
    (hfirst : ∀ i, i < k → f i < D)
    (hk : D ≤ f k)
    (hj : j < k)
    (hflush : env.flushResult = .ok ())
    (hsend : env.sendFrameResult fr = .ok ())
    (hfin : env.finishResult = .ok ())
    (henc : c.encoder = some enc) :
    f k ≤ D + interval ∧
    (on_frame_arrived env { c with rx := chanAt D (f k) } fr).outcome = .ok true ∧
    Event.stopRequested ∈
      (on_frame_arrived env { c with rx := chanAt D (f k) } fr).events ∧
    (on_frame_arrived env { c with rx := chanAt D (f j) } fr).outcome = .ok false ∧
    Event.stopRequested ∉
      (on_frame_arrived env { c with rx := chanAt D (f j) } fr).events := by
  have hbound : f k ≤ D + interval := by
    cases k with
    | zero => omega
    | succ k' =>
      have h1 := hfirst k' (Nat.lt_succ_self k')
      have h2 := hgap k'
      omega
  have hjlt : f j < D := hfirst j hj
  have hck : chanAt D (f k) = ⟨1, true⟩ := by simp [chanAt, hk]
  have hcj : chanAt D (f j) = ⟨0, true⟩ := by simp [chanAt, Nat.not_le.mpr hjlt]
  refine ⟨hbound, ?_⟩
  rw [hck, hcj]
  simp [on_frame_arrived, ChannelState.tryRecv, hflush, hsend, hfin, henc]

/-- Concrete run of the stop-latency theorem: frames every 2 ticks starting
at 0, signal at time 1; frame 0 (time 0) continues, frame 1 (time 2 ≤ 1 +
2) observes the signal and stops. -/
theorem cooperative_stop_latency_witness :
    2 * 1 ≤ 1 + 2 ∧
    (on_frame_arrived sampleEnv { sampleCapture with rx := chanAt 1 (2 * 1) }
      sampleFrame).outcome = .ok true ∧
    Event.stopRequested ∈
      (on_frame_arrived sampleEnv { sampleCapture with rx := chanAt 1 (2 * 1) }
        sampleFrame).events ∧
    (on_frame_arrived sampleEnv { sampleCapture with rx := chanAt 1 (2 * 0) }
      sampleFrame).outcome = .ok false ∧
    Event.stopRequested ∉
      (on_frame_arrived sampleEnv { sampleCapture with rx := chanAt 1 (2 * 0) }
        sampleFrame).events :=
  cooperative_stop_latency 1 2 (fun i => 2 * i) 1 0 sampleEnv sampleCapture
    sampleFrame sampleEncoder (by omega)
    (fun i => by show 2 * (i + 1) ≤ 2 * i + 2; omega)
    (by show 2 * 0 ≤ 1; omega)
    (fun i hi => by show 2 * i < 1; omega)
    (by show 1 ≤ 2 * 1; omega) (by omega) rfl rfl rfl rfl

end WinCapture
